import Mathlib

/-!
Shallow embedding of the caching data-source core of the
apollo-datasource-dynamodb repository.

The embedding covers:
- the Key Builder functions (`buildKey`, `buildCacheKey`, `buildItemsCacheMap`)
  of the utils module (modelled from the spec, its source file is not present);
- the cache layer (`retrieveFromCache`, `cacheGetItem`) of the DynamoDBCache
  module (modelled from the spec, its source file is not present);
- the table facade operations of DynamoDBDataSource.ts
  (`query`, `queryDetails`, `scan`, `scanDetails`, `put`, `update`,
  `updateConditional`, `delete`, `cacheItems`, `getItem`), translated
  directly from the source.

Records are association lists of attribute name/value pairs (attribute values
are modelled as strings).  Every facade operation is a pure function from its
inputs plus the responses of the two external collaborators (the backing
table store and the key-value cache) to a result and a trace of the store
and cache calls it issues, in order.  The optional `ttl` parameter is an
`Option Nat`; the JavaScript source guards cache writes with the truthiness
of `ttl`, under which both `undefined` and `0` are falsy.
-/

namespace DynamoDS

/-- A record / item: an association list of attribute name, attribute value. -/
abbrev Record := List (String × String)

/-- One entry of a table key schema, as in the AWS SDK: an attribute name and
a key type string (the source uses the literals HASH and RANGE). -/
structure KeySchemaElement where
  AttributeName : String
  KeyType : String
deriving DecidableEq, Repr

/-- A table key schema: ordered list of key schema elements. -/
abbrev KeySchema := List KeySchemaElement

/-- Attribute access `item[name]` of JavaScript: the value of the first
binding of `name`, or the string rendering of `undefined` when the record
lacks the attribute (which is how a missing attribute would appear inside
the template-string cache key). -/
def attrOf (item : Record) (name : String) : String :=
  (((item.find? (fun e => e.1 = name)).map (fun e => e.2))).getD "undefined"

/-- Modelled from the spec: `buildKey (keySchema, record)` of the missing
utils module extracts, for each entry of the key schema, the attribute named
by that entry from the record, producing the primary-key mapping. -/
def buildKey (keySchema : KeySchema) (item : Record) : Record :=
  keySchema.map (fun e => (e.AttributeName, attrOf item e.AttributeName))

/-- Modelled from the spec: the CACHE_PREFIX_KEY constant of the missing
DynamoDBCache module.  The spec example renders keys as sup:orders:id-o1. -/
def CACHE_PREFIX_KEY : String := "sup:"

/-- Joining a list of strings with the "-" delimiter, the join("-", ...) of
the spec's cache-key format. -/
def joinDash : List String → String
  | [] => ""
  | [x] => x
  | x :: y :: rest => x ++ "-" ++ joinDash (y :: rest)

/-- Modelled from the spec: `buildCacheKey (pfx, tableName, key)` of the
missing utils module: pfx + tableName + ":" + join("-", entries), where each
entry of the primary-key mapping is rendered as "name-value". -/
def buildCacheKey (pfx : String) (tableName : String) (key : Record) : String :=
  pfx ++ tableName ++ ":" ++ joinDash (key.map (fun e => e.1 ++ "-" ++ e.2))

/-- Insertion into a JavaScript-object-like mapping: overwrite the value in
place when the key is present (last write wins), append otherwise. -/
def mapInsert (m : List (String × Record)) (k : String) (v : Record) :
    List (String × Record) :=
  if m.any (fun e => e.1 = k) then
    m.map (fun e => if e.1 = k then (k, v) else e)
  else m ++ [(k, v)]

/-- Modelled from the spec: `buildItemsCacheMap (pfx, tableName, keySchema,
records)` of the missing utils module: for each record, derive its cache key
via `buildKey` and `buildCacheKey` and insert (cache key, record) into the
result mapping, duplicates resolved last-write-wins. -/
def buildItemsCacheMap (pfx tableName : String) (keySchema : KeySchema)
    (items : List Record) : List (String × Record) :=
  items.foldl
    (fun acc item =>
      mapInsert acc (buildCacheKey pfx tableName (buildKey keySchema item)) item)
    []

/-- Input of the query operation (the fields the embedding carries). -/
structure QueryIn where
  TableName : String
  KeyConditionExpression : Option String
deriving DecidableEq, Repr

/-- Input of the scan operation (the fields the embedding carries). -/
structure ScanIn where
  TableName : String
  FilterExpression : Option String
deriving DecidableEq, Repr

/-- The response envelope the backing store reports for a query or a scan. -/
structure QueryOutput where
  Items : List Record
  Count : Option Nat
  ScannedCount : Option Nat
  LastEvaluatedKey : Option Record
deriving DecidableEq, Repr

/-- The details part of an ItemsList, as in types.ts. -/
structure ItemsDetails where
  Count : Option Nat
  ScannedCount : Option Nat
  LastEvaluatedKey : Option Record
deriving DecidableEq, Repr

/-- The ItemsList envelope of types.ts returned by queryDetails/scanDetails. -/
structure ItemsList where
  items : List Record
  details : ItemsDetails
deriving DecidableEq, Repr

/-- The put command input built by the facade's put. -/
structure PutIn where
  TableName : String
  Item : Record
  ConditionExpression : Option String
deriving DecidableEq, Repr

/-- The update command input built by the facade's update/updateConditional. -/
structure UpdateIn where
  TableName : String
  Key : Record
  ReturnValues : String
  UpdateExpression : String
  ExpressionAttributeNames : List (String × String)
  ExpressionAttributeValues : List (String × String)
  ConditionExpression : Option String
deriving DecidableEq, Repr

/-- The delete command input built by the facade's delete. -/
structure DeleteIn where
  TableName : String
  Key : Record
deriving DecidableEq, Repr

/-- One observable call to an external collaborator: a backing-store command
or a key-value-cache operation.  Each facade operation produces the list of
these events in the order it issues them. -/
inductive Evt where
  | storeQuery (input : QueryIn)
  | storeScan (input : ScanIn)
  | storeGet (tableName : String) (key : Record)
  | storePut (input : PutIn)
  | storeUpdate (input : UpdateIn)
  | storeDelete (input : DeleteIn)
  | cacheRead (cacheKey : String)
  | cacheSet (cacheKey : String) (item : Record) (ttl : Option Nat)
  | cacheSetItems (map : List (String × Record)) (ttl : Option Nat)
  | cacheRemove (tableName : String) (key : Record)
deriving DecidableEq, Repr

/-- Whether an event is a cache write (single or bulk population). -/
def Evt.isCacheWrite : Evt → Bool
  | .cacheSet _ _ _ => true
  | .cacheSetItems _ _ => true
  | _ => false

/-- Whether an event is any cache operation (read, write, or removal). -/
def Evt.isCacheOp : Evt → Bool
  | .cacheRead _ => true
  | .cacheSet _ _ _ => true
  | .cacheSetItems _ _ => true
  | .cacheRemove _ _ => true
  | _ => false

/-- Whether an event is a bulk cache population (setItemsInCache call). -/
def Evt.isBulkCacheSet : Evt → Bool
  | .cacheSetItems _ _ => true
  | _ => false

/-- Whether an event is a backing-store call. -/
def Evt.isStoreOp : Evt → Bool
  | .storeQuery _ => true
  | .storeScan _ => true
  | .storeGet _ _ => true
  | .storePut _ => true
  | .storeUpdate _ => true
  | .storeDelete _ => true
  | _ => false

/-- The cache operations of a trace. -/
def cacheOps (t : List Evt) : List Evt := t.filter Evt.isCacheOp

/-- The cache writes of a trace. -/
def cacheWrites (t : List Evt) : List Evt := t.filter Evt.isCacheWrite

/-- The bulk cache populations of a trace. -/
def bulkSets (t : List Evt) : List Evt := t.filter Evt.isBulkCacheSet

/-- The backing-store calls of a trace. -/
def storeOps (t : List Evt) : List Evt := t.filter Evt.isStoreOp

/-- JavaScript truthiness of the optional numeric ttl parameter: an absent
ttl and a ttl of 0 are falsy, every other number is truthy. -/
def ttlTruthy : Option Nat → Bool
  | none => false
  | some n => n != 0

/-- JavaScript truthiness of an optional string (the conditional spread
`conditionExpression ? { ConditionExpression } : {}` of the source omits the
field for undefined and for the empty string). -/
def condField : Option String → Option String
  | none => none
  | some s => if s != "" then some s else none

/-- Errors an operation can surface to the caller. -/
inductive DbErr where
  | notFound
  | cacheWriteFailed
  | cacheRemoveFailed
deriving DecidableEq, Repr

/-- The outcome of the key-value-cache call an operation issues, a parameter
standing for the external cache collaborator's behavior. -/
inductive CacheResp where
  | ok
  | err
deriving DecidableEq, Repr

/-- The construction-time state of a DynamoDBDataSource instance: the table
name and the table key schema. -/
structure DS where
  tableName : String
  tableKeySchema : KeySchema
deriving DecidableEq, Repr

/-- DynamoDBDataSource.cacheItems: if the item list is non-empty and the ttl
is truthy, issue one setItemsInCache call with the mapping built by
buildItemsCacheMap; otherwise do nothing.  Returns the outcome reported to
the caller together with the cache calls issued. -/
def cacheItems (ds : DS) (items : List Record) (ttl : Option Nat)
    (cacheResp : CacheResp) : Except DbErr Unit × List Evt :=
  if items.length != 0 && ttlTruthy ttl then
    ((match cacheResp with
      | .ok => Except.ok ()
      | .err => Except.error DbErr.cacheWriteFailed),
     [Evt.cacheSetItems
        (buildItemsCacheMap CACHE_PREFIX_KEY ds.tableName ds.tableKeySchema items)
        ttl])
  else (Except.ok (), [])

/-- DynamoDBDataSource.query: send the query command, read `output.Items`,
run cacheItems on them, return the items. -/
def query (ds : DS) (queryInput : QueryIn) (output : QueryOutput)
    (ttl : Option Nat) (cacheResp : CacheResp) :
    Except DbErr (List Record) × List Evt :=
  let items := output.Items
  let c := cacheItems ds items ttl cacheResp
  (c.1.map (fun _ => items), Evt.storeQuery queryInput :: c.2)

/-- DynamoDBDataSource.queryDetails: send the query command, read the items
and the details envelope, run cacheItems, return the ItemsList. -/
def queryDetails (ds : DS) (queryInput : QueryIn) (output : QueryOutput)
    (ttl : Option Nat) (cacheResp : CacheResp) :
    Except DbErr ItemsList × List Evt :=
  let items := output.Items
  let details : ItemsDetails :=
    ⟨output.Count, output.ScannedCount, output.LastEvaluatedKey⟩
  let c := cacheItems ds items ttl cacheResp
  (c.1.map (fun _ => ItemsList.mk items details),
   Evt.storeQuery queryInput :: c.2)

/-- DynamoDBDataSource.scan: send the scan command, read `output.Items`,
run cacheItems on them, return the items. -/
def scan (ds : DS) (scanInput : ScanIn) (output : QueryOutput)
    (ttl : Option Nat) (cacheResp : CacheResp) :
    Except DbErr (List Record) × List Evt :=
  let items := output.Items
  let c := cacheItems ds items ttl cacheResp
  (c.1.map (fun _ => items), Evt.storeScan scanInput :: c.2)

/-- DynamoDBDataSource.scanDetails: send the scan command, read the items
and the details envelope, run cacheItems, return the ItemsList. -/
def scanDetails (ds : DS) (scanInput : ScanIn) (output : QueryOutput)
    (ttl : Option Nat) (cacheResp : CacheResp) :
    Except DbErr ItemsList × List Evt :=
  let items := output.Items
  let details : ItemsDetails :=
    ⟨output.Count, output.ScannedCount, output.LastEvaluatedKey⟩
  let c := cacheItems ds items ttl cacheResp
  (c.1.map (fun _ => ItemsList.mk items details),
   Evt.storeScan scanInput :: c.2)

/-- DynamoDBDataSource.put: send the put command; if the ttl is truthy,
derive the cache key from the item's own primary-key attributes via buildKey
and buildCacheKey and issue one setInCache call; return the item. -/
def put (ds : DS) (item : Record) (ttl : Option Nat)
    (conditionExpression : Option String) (cacheResp : CacheResp) :
    Except DbErr Record × List Evt :=
  let putItemInput : PutIn :=
    ⟨ds.tableName, item, condField conditionExpression⟩
  if ttlTruthy ttl then
    let key := buildKey ds.tableKeySchema item
    let cacheKey := buildCacheKey CACHE_PREFIX_KEY ds.tableName key
    ((match cacheResp with
      | .ok => Except.ok item
      | .err => Except.error DbErr.cacheWriteFailed),
     [Evt.storePut putItemInput, Evt.cacheSet cacheKey item ttl])
  else (Except.ok item, [Evt.storePut putItemInput])

/-- DynamoDBDataSource.update: send the update command with ReturnValues
ALL_NEW; `storeAttributes` is the post-update record the backing store
reports (`output.Attributes`, absent when the store reports none).  If the
reported record and the ttl are both truthy, issue one setInCache call under
the cache key derived from the `key` parameter; return the reported record. -/
def update (ds : DS) (key : Record) (updateExpression : String)
    (expressionAttributeNames expressionAttributeValues : List (String × String))
    (ttl : Option Nat) (conditionExpression : Option String)
    (storeAttributes : Option Record) (cacheResp : CacheResp) :
    Except DbErr (Option Record) × List Evt :=
  let updateItemInput : UpdateIn :=
    ⟨ds.tableName, key, "ALL_NEW", updateExpression, expressionAttributeNames,
     expressionAttributeValues, condField conditionExpression⟩
  match storeAttributes, ttlTruthy ttl with
  | some updated, true =>
      let cacheKey := buildCacheKey CACHE_PREFIX_KEY ds.tableName key
      ((match cacheResp with
        | .ok => Except.ok (some updated)
        | .err => Except.error DbErr.cacheWriteFailed),
       [Evt.storeUpdate updateItemInput, Evt.cacheSet cacheKey updated ttl])
  | u, _ => (Except.ok u, [Evt.storeUpdate updateItemInput])

/-- DynamoDBDataSource.updateConditional: like update, but the condition
expression is a required parameter placed unconditionally in the command. -/
def updateConditional (ds : DS) (key : Record) (updateExpression : String)
    (conditionExpression : Option String)
    (expressionAttributeNames expressionAttributeValues : List (String × String))
    (ttl : Option Nat) (storeAttributes : Option Record) (cacheResp : CacheResp) :
    Except DbErr (Option Record) × List Evt :=
  let updateItemInput : UpdateIn :=
    ⟨ds.tableName, key, "ALL_NEW", updateExpression, expressionAttributeNames,
     expressionAttributeValues, conditionExpression⟩
  match storeAttributes, ttlTruthy ttl with
  | some updated, true =>
      let cacheKey := buildCacheKey CACHE_PREFIX_KEY ds.tableName key
      ((match cacheResp with
        | .ok => Except.ok (some updated)
        | .err => Except.error DbErr.cacheWriteFailed),
       [Evt.storeUpdate updateItemInput, Evt.cacheSet cacheKey updated ttl])
  | u, _ => (Except.ok u, [Evt.storeUpdate updateItemInput])

/-- DynamoDBDataSource.delete: send the delete command, then always call
removeItemFromCache with the table name and the key; a failing cache removal
surfaces as an error. -/
def delete (ds : DS) (key : Record) (cacheResp : CacheResp) :
    Except DbErr Unit × List Evt :=
  let deleteItemInput : DeleteIn := ⟨ds.tableName, key⟩
  ((match cacheResp with
    | .ok => Except.ok ()
    | .err => Except.error DbErr.cacheRemoveFailed),
   [Evt.storeDelete deleteItemInput, Evt.cacheRemove ds.tableName key])

/-- The outcome of the key-value cache's low-level get for a key: a raw
string value, no entry, or a transport error (the get rejected). -/
inductive CacheGetOutcome where
  | value (raw : String)
  | missing
  | failed
deriving DecidableEq, Repr

/-- Splitting a character list at every occurrence of a separator. -/
def splitListOn (sep : Char) : List Char → List (List Char)
  | [] => [[]]
  | c :: rest =>
    let r := splitListOn sep rest
    if c = sep then [] :: r
    else
      match r with
      | [] => [[c]]
      | h :: t => (c :: h) :: t

/-- Parsing one serialized field of the form name=value. -/
def parseField (f : List Char) : Option (String × String) :=
  match splitListOn '=' f with
  | [n, v] => some (String.mk n, String.mk v)
  | _ => none

/-- Modelled from the spec: deserialization of a cached record, the inverse
of the serialization used by the missing DynamoDBCache module.  The concrete
format (name=value fields each terminated by a semicolon) stands in for the
JSON serialization of the source; what matters to the claims is that parsing
is total and can fail. -/
def parseRecord (s : String) : Option Record :=
  let parts := splitListOn ';' s.data
  match parts.getLast? with
  | some [] =>
      parts.dropLast.foldr
        (fun f acc =>
          match parseField f, acc with
          | some e, some r => some (e :: r)
          | _, _ => none)
        (some [])
  | _ => none

/-- Modelled from the spec: DynamoDBCacheImpl.retrieveFromCache of the
missing DynamoDBCache module returns the deserialized record when the
key-value cache's get yields a parseable value, and an absent marker on
every failure (missing key, deserialization error, transport error); it is
a total function and never throws. -/
def retrieveFromCache (outcome : CacheGetOutcome) : Option Record :=
  match outcome with
  | .value raw => parseRecord raw
  | .missing => none
  | .failed => none

/-- The get command input of a point lookup. -/
structure GetIn where
  TableName : String
  Key : Record
  ConsistentRead : Bool
deriving DecidableEq, Repr

/-- Modelled from the spec: DynamoDBCacheImpl.getItem of the missing
DynamoDBCache module.  Derive the cache key from the lookup's table name and
key; on a cache hit return the cached record without touching the backing
store; on a cache miss issue the point lookup (`storeItem` is what the store
reports); when the store has no record fail with a NotFound-class error and
cache nothing; when it has one, write it through under the same cache key
when a ttl is supplied, and return it. -/
def cacheGetItem (getItemInput : GetIn) (outcome : CacheGetOutcome)
    (storeItem : Option Record) (ttl : Option Nat) :
    Except DbErr Record × List Evt :=
  let cacheKey :=
    buildCacheKey CACHE_PREFIX_KEY getItemInput.TableName getItemInput.Key
  match retrieveFromCache outcome with
  | some item => (Except.ok item, [Evt.cacheRead cacheKey])
  | none =>
      match storeItem with
      | none =>
          (Except.error DbErr.notFound,
           [Evt.cacheRead cacheKey,
            Evt.storeGet getItemInput.TableName getItemInput.Key])
      | some item =>
          if ttl.isSome then
            (Except.ok item,
             [Evt.cacheRead cacheKey,
              Evt.storeGet getItemInput.TableName getItemInput.Key,
              Evt.cacheSet cacheKey item ttl])
          else
            (Except.ok item,
             [Evt.cacheRead cacheKey,
              Evt.storeGet getItemInput.TableName getItemInput.Key])

/-- DynamoDBDataSource.getItem: pure delegation into the cache layer's
getItem. -/
def getItem (getItemInput : GetIn) (outcome : CacheGetOutcome)
    (storeItem : Option Record) (ttl : Option Nat) :
    Except DbErr Record × List Evt :=
  cacheGetItem getItemInput outcome storeItem ttl

/-! Helper development for the cache-key collision analysis: character-level
view of the cache-key join, and its injectivity on delimiter-free keys. -/

/-- Character-level fragment of one primary-key entry: name ++ "-" ++ value. -/
def keyFrag (a b : List Char) : List Char := a ++ '-' :: b

/-- Character-level view of join("-", fragments) over a primary-key mapping
given as pairs of character lists. -/
def keyJoin : List (List Char × List Char) → List Char
  | [] => []
  | [(a, b)] => keyFrag a b
  | (a, b) :: e :: rest => keyFrag a b ++ '-' :: keyJoin (e :: rest)

/-- The character-level image of a primary-key mapping. -/
def keyData (k : Record) : List (List Char × List Char) :=
  k.map (fun e => (e.1.data, e.2.data))

/-- A primary-key mapping is delimiter-free when no attribute name and no
attribute value contains the "-" delimiter character. -/
def DashFreeKey (k : Record) : Prop :=
  ∀ e ∈ k, ('-' ∉ e.1.data) ∧ ('-' ∉ e.2.data)

instance (k : Record) : Decidable (DashFreeKey k) := by
  unfold DashFreeKey
  exact List.decidableBAll _ k

theorem dash_data : ("-" : String).data = ['-'] := rfl

theorem colon_data : (":" : String).data = [':'] := rfl

theorem joinDash_data : ∀ k : Record,
    (joinDash (k.map (fun e => e.1 ++ "-" ++ e.2))).data = keyJoin (keyData k) := by
  intro k
  induction k with
  | nil => rfl
  | cons e tl ih =>
    cases tl with
    | nil =>
      simp [joinDash, keyJoin, keyData, keyFrag, dash_data]
    | cons f r =>
      simp only [List.map_cons, joinDash, keyData, keyJoin, keyFrag,
        String.data_append, dash_data] at ih ⊢
      simp [ih, List.append_assoc]

/-- Splitting a concatenation at the first occurrence of a separator that
appears in neither prefix determines both parts. -/
theorem append_sep_inj (sep : Char) :
    ∀ (a b r s : List Char), sep ∉ a → sep ∉ b →
      a ++ sep :: r = b ++ sep :: s → a = b ∧ r = s := by
  intro a
  induction a with
  | nil =>
    intro b r s _ hb h
    cases b with
    | nil => simpa using h
    | cons c b2 =>
      simp only [List.nil_append, List.cons_append, List.cons.injEq] at h
      exact absurd (h.1 ▸ List.mem_cons_self c b2) hb
  | cons c a2 ih =>
    intro b r s ha hb h
    cases b with
    | nil =>
      simp only [List.nil_append, List.cons_append, List.cons.injEq] at h
      exact absurd (h.1.symm ▸ List.mem_cons_self c a2) ha
    | cons d b2 =>
      simp only [List.cons_append, List.cons.injEq] at h
      have ha2 : sep ∉ a2 := fun hm => ha (List.mem_cons_of_mem _ hm)
      have hb2 : sep ∉ b2 := fun hm => hb (List.mem_cons_of_mem _ hm)
      obtain ⟨h1, h2⟩ := ih b2 r s ha2 hb2 h.2
      exact ⟨by rw [h.1, h1], h2⟩

/-- Delimiter-free pairs of character lists. -/
def DashFreePairs (l : List (List Char × List Char)) : Prop :=
  ∀ e ∈ l, ('-' ∉ e.1) ∧ ('-' ∉ e.2)

theorem keyJoin_inj : ∀ (l1 l2 : List (List Char × List Char)),
    DashFreePairs l1 → DashFreePairs l2 → keyJoin l1 = keyJoin l2 → l1 = l2 := by
  intro l1
  induction l1 with
  | nil =>
    intro l2 _ _ h
    cases l2 with
    | nil => rfl
    | cons e t =>
      obtain ⟨a, b⟩ := e
      cases t <;> simp [keyJoin, keyFrag] at h
  | cons e1 t1 ih =>
    intro l2 h1 h2 h
    obtain ⟨a1, b1⟩ := e1
    have hfree1 := h1 _ (List.mem_cons_self (a1, b1) t1)
    cases l2 with
    | nil =>
      cases t1 <;> simp [keyJoin, keyFrag] at h
    | cons e2 t2 =>
      obtain ⟨a2, b2⟩ := e2
      have hfree2 := h2 _ (List.mem_cons_self (a2, b2) t2)
      cases t1 with
      | nil =>
        cases t2 with
        | nil =>
          simp only [keyJoin, keyFrag] at h
          obtain ⟨hha, hhb⟩ := append_sep_inj '-' a1 a2 b1 b2 hfree1.1 hfree2.1 h
          rw [hha, hhb]
        | cons f2 r2 =>
          simp only [keyJoin, keyFrag, List.append_assoc, List.cons_append] at h
          obtain ⟨_, hhb⟩ := append_sep_inj '-' a1 a2 _ _ hfree1.1 hfree2.1 h
          exact absurd (hhb ▸ List.mem_append_right b2 (List.mem_cons_self _ _))
            hfree1.2
      | cons f1 r1 =>
        cases t2 with
        | nil =>
          simp only [keyJoin, keyFrag, List.append_assoc, List.cons_append] at h
          obtain ⟨_, hhb⟩ := append_sep_inj '-' a1 a2 _ _ hfree1.1 hfree2.1 h
          exact absurd (hhb ▸ List.mem_append_right b1 (List.mem_cons_self _ _))
            hfree2.2
        | cons f2 r2 =>
          simp only [keyJoin, keyFrag, List.append_assoc, List.cons_append] at h
          obtain ⟨hha, hrest⟩ :=
            append_sep_inj '-' a1 a2 _ _ hfree1.1 hfree2.1 h
          obtain ⟨hhb, hjoin⟩ :=
            append_sep_inj '-' b1 b2 _ _ hfree1.2 hfree2.2 hrest
          have htl : f1 :: r1 = f2 :: r2 := by
            refine ih (f2 :: r2) ?_ ?_ hjoin
            · exact fun x hx => h1 x (List.mem_cons_of_mem _ hx)
            · exact fun x hx => h2 x (List.mem_cons_of_mem _ hx)
          rw [hha, hhb, htl]

theorem keyData_inj : ∀ k1 k2 : Record, keyData k1 = keyData k2 → k1 = k2 := by
  intro k1
  induction k1 with
  | nil =>
    intro k2 h
    cases k2 with
    | nil => rfl
    | cons f s => simp [keyData] at h
  | cons e t ih =>
    intro k2 h
    cases k2 with
    | nil => simp [keyData] at h
    | cons f s =>
      simp only [keyData, List.map_cons, List.cons.injEq, Prod.mk.injEq] at h
      obtain ⟨⟨hn, hv⟩, htl⟩ := h
      have he : e = f := Prod.ext (String.ext hn) (String.ext hv)
      rw [he, ih s htl]

theorem buildCacheKey_data (p t : String) (k : Record) :
    (buildCacheKey p t k).data =
      p.data ++ (t.data ++ (':' :: keyJoin (keyData k))) := by
  simp [buildCacheKey, joinDash_data, colon_data, List.append_assoc]

/-- Equal cache keys over delimiter-free primary-key mappings force equal
mappings (injectivity of the cache-key derivation on delimiter-free keys). -/
theorem buildCacheKey_inj (pfx tableName : String) (k1 k2 : Record)
    (h1 : DashFreeKey k1) (h2 : DashFreeKey k2)
    (h : buildCacheKey pfx tableName k1 = buildCacheKey pfx tableName k2) :
    k1 = k2 := by
  have hd := congrArg String.data h
  rw [buildCacheKey_data, buildCacheKey_data] at hd
  have hd2 := List.append_cancel_left (List.append_cancel_left hd)
  have hj : keyJoin (keyData k1) = keyJoin (keyData k2) := by
    injection hd2
  have hp1 : DashFreePairs (keyData k1) := by
    intro x hx
    obtain ⟨e, he, hex⟩ := List.mem_map.mp hx
    exact hex ▸ h1 e he
  have hp2 : DashFreePairs (keyData k2) := by
    intro x hx
    obtain ⟨e, he, hex⟩ := List.mem_map.mp hx
    exact hex ▸ h2 e he
  exact keyData_inj _ _ (keyJoin_inj _ _ hp1 hp2 hj)

theorem cacheOps_cacheItems (ds : DS) (items : List Record) (ttl : Option Nat)
    (cr : CacheResp) :
    cacheOps (cacheItems ds items ttl cr).2 =
      if items.length != 0 && ttlTruthy ttl then
        [Evt.cacheSetItems
          (buildItemsCacheMap CACHE_PREFIX_KEY ds.tableName ds.tableKeySchema items)
          ttl]
      else [] := by
  unfold cacheItems cacheOps
  split <;> simp_all [List.filter, Evt.isCacheOp]

theorem cacheItems_ok_result (ds : DS) (items : List Record) (ttl : Option Nat) :
    (cacheItems ds items ttl CacheResp.ok).1 = Except.ok () := by
  unfold cacheItems
  split <;> rfl

/-- Claim C1 (amended): query, queryDetails, scan and scanDetails return
exactly the item list the backing store reports, and the cache interaction
is exactly one bulk setItemsInCache call carrying
buildItemsCacheMap(prefix, tableName, keySchema, results) with the given
ttl when the result list is non-empty and the ttl is a truthy (nonzero)
value, and no cache operation of any kind otherwise. -/
theorem claim_C1_query_scan_results_and_population
    (ds : DS) (qin : QueryIn) (sin : ScanIn) (out : QueryOutput)
    (ttl : Option Nat) (cr : CacheResp) :
    (query ds qin out ttl CacheResp.ok).1 = Except.ok out.Items ∧
    (scan ds sin out ttl CacheResp.ok).1 = Except.ok out.Items ∧
    (queryDetails ds qin out ttl CacheResp.ok).1 =
      Except.ok ⟨out.Items, ⟨out.Count, out.ScannedCount, out.LastEvaluatedKey⟩⟩ ∧
    (scanDetails ds sin out ttl CacheResp.ok).1 =
      Except.ok ⟨out.Items, ⟨out.Count, out.ScannedCount, out.LastEvaluatedKey⟩⟩ ∧
    cacheOps (query ds qin out ttl cr).2 =
      (if out.Items.length != 0 && ttlTruthy ttl then
        [Evt.cacheSetItems
          (buildItemsCacheMap CACHE_PREFIX_KEY ds.tableName ds.tableKeySchema out.Items)
          ttl]
      else []) ∧
    cacheOps (scan ds sin out ttl cr).2 =
      (if out.Items.length != 0 && ttlTruthy ttl then
        [Evt.cacheSetItems
          (buildItemsCacheMap CACHE_PREFIX_KEY ds.tableName ds.tableKeySchema out.Items)
          ttl]
      else []) ∧
    cacheOps (queryDetails ds qin out ttl cr).2 =
      (if out.Items.length != 0 && ttlTruthy ttl then
        [Evt.cacheSetItems
          (buildItemsCacheMap CACHE_PREFIX_KEY ds.tableName ds.tableKeySchema out.Items)
          ttl]
      else []) ∧
    cacheOps (scanDetails ds sin out ttl cr).2 =
      (if out.Items.length != 0 && ttlTruthy ttl then
        [Evt.cacheSetItems
          (buildItemsCacheMap CACHE_PREFIX_KEY ds.tableName ds.tableKeySchema out.Items)
          ttl]
      else []) := by
  refine ⟨?_, ?_, ?_, ?_, ?_, ?_, ?_, ?_⟩
  · simp [query, cacheItems_ok_result, Except.map]
  · simp [scan, cacheItems_ok_result, Except.map]
  · simp [queryDetails, cacheItems_ok_result, Except.map]
  · simp [scanDetails, cacheItems_ok_result, Except.map]
  · simpa [query, cacheOps, List.filter, Evt.isCacheOp] using
      cacheOps_cacheItems ds out.Items ttl cr
  · simpa [scan, cacheOps, List.filter, Evt.isCacheOp] using
      cacheOps_cacheItems ds out.Items ttl cr
  · simpa [queryDetails, cacheOps, List.filter, Evt.isCacheOp] using
      cacheOps_cacheItems ds out.Items ttl cr
  · simpa [scanDetails, cacheOps, List.filter, Evt.isCacheOp] using
      cacheOps_cacheItems ds out.Items ttl cr

/-- Claim C1, counterexample to the claim as stated: with ttl = 0 the ttl is
set and the store reports a non-empty list, yet no bulk cache population
occurs, because the source guards the population with JavaScript truthiness
of ttl and 0 is falsy. -/
theorem claim_C1_counterexample :
    ¬ (bulkSets (query ⟨"test_hash_only", [⟨"id", "HASH"⟩]⟩
          ⟨"test_hash_only", some "id = :id"⟩
          ⟨[[("id", "testId"), ("test", "testing")]], some 1, some 1, none⟩
          (some 0) CacheResp.ok).2 ≠ [] ↔
        ((some 0 : Option Nat).isSome = true ∧
          ([[("id", "testId"), ("test", "testing")]] : List Record) ≠ [])) := by
  decide

/-- Claim C3 (amended): put issues the backing-store put unconditionally
and, exactly when the ttl is truthy (set and nonzero), follows it with
exactly one cache write, under the cache key derived from the item's own
primary-key attributes, with the put item as value and the given ttl; with
a falsy ttl no cache operation of any kind occurs. -/
theorem claim_C3_put_cache_write (ds : DS) (item : Record) (ttl : Option Nat)
    (cond : Option String) (cr : CacheResp) :
    (put ds item ttl cond cr).2 =
      Evt.storePut ⟨ds.tableName, item, condField cond⟩ ::
        (if ttlTruthy ttl then
          [Evt.cacheSet
            (buildCacheKey CACHE_PREFIX_KEY ds.tableName
              (buildKey ds.tableKeySchema item))
            item ttl]
        else []) := by
  unfold put
  split <;> rfl

/-- Claim C3, counterexample to the claim as stated: with ttl = 0 the ttl is
set, yet put performs no cache write at all. -/
theorem claim_C3_counterexample :
    ¬ ((some 0 : Option Nat).isSome = true →
        (cacheWrites (put ⟨"test_hash_only", [⟨"id", "HASH"⟩]⟩
            [("id", "testId2"), ("test", "testing2")] (some 0) none
            CacheResp.ok).2).length = 1) := by
  decide

/-- Claim C4 (amended): update and updateConditional issue the backing-store
update unconditionally; exactly when the store reports a post-update record
and the ttl is truthy (set and nonzero), exactly one cache write follows,
under the cache key derived from the key parameter passed to the operation,
with the store's reported post-update record as value and the given ttl;
otherwise no cache write occurs. -/
theorem claim_C4_update_cache_write (ds : DS) (key : Record) (ue : String)
    (names vals : List (String × String)) (ttl : Option Nat)
    (cond : Option String) (attrs : Option Record) (cr : CacheResp) :
    (update ds key ue names vals ttl cond attrs cr).2 =
      Evt.storeUpdate
          ⟨ds.tableName, key, "ALL_NEW", ue, names, vals, condField cond⟩ ::
        (match attrs, ttlTruthy ttl with
         | some u, true =>
             [Evt.cacheSet (buildCacheKey CACHE_PREFIX_KEY ds.tableName key) u ttl]
         | _, _ => []) ∧
    (updateConditional ds key ue cond names vals ttl attrs cr).2 =
      Evt.storeUpdate ⟨ds.tableName, key, "ALL_NEW", ue, names, vals, cond⟩ ::
        (match attrs, ttlTruthy ttl with
         | some u, true =>
             [Evt.cacheSet (buildCacheKey CACHE_PREFIX_KEY ds.tableName key) u ttl]
         | _, _ => []) := by
  cases attrs <;> cases httl : ttlTruthy ttl <;>
    simp [update, updateConditional, httl]

/-- Claim C4, counterexample to the claim as stated: with ttl = 0 the store
reports a post-update record and the ttl is set, yet no cache write occurs,
because 0 is falsy in the source's truthiness guard. -/
theorem claim_C4_counterexample :
    ¬ (((some 0 : Option Nat).isSome = true ∧
          (some [("id", "testId2"), ("test", "testing_updated")] : Option Record)
            ≠ none) →
        (cacheWrites (update ⟨"test_hash_only", [⟨"id", "HASH"⟩]⟩
            [("id", "testId2")] "SET #test = :test" [("#test", "test")]
            [(":test", "testing_updated")] (some 0) none
            (some [("id", "testId2"), ("test", "testing_updated")])
            CacheResp.ok).2).length = 1) := by
  decide

/-- Claim C5: delete always issues the backing-store delete and then exactly
one removeItemFromCache call with the table name and the key, in that order,
irrespective of any ttl (delete takes none) and of the cache collaborator's
response. -/
theorem claim_C5_delete_always_invalidates (ds : DS) (key : Record)
    (cr : CacheResp) :
    (delete ds key cr).2 =
      [Evt.storeDelete ⟨ds.tableName, key⟩, Evt.cacheRemove ds.tableName key] := by
  rfl

/-- Claim C2 (amended): records with identical primary-key attribute values
yield byte-identical cache keys; and records differing in at least one
primary-key attribute value yield different cache keys provided the derived
primary-key mappings are delimiter-free (no attribute name or extracted
value contains the "-" delimiter character). -/
theorem claim_C2_cache_key_determinism_and_injectivity :
    (∀ (tableName : String) (schema : KeySchema) (r1 r2 : Record),
        (∀ e ∈ schema, attrOf r1 e.AttributeName = attrOf r2 e.AttributeName) →
        buildCacheKey CACHE_PREFIX_KEY tableName (buildKey schema r1) =
          buildCacheKey CACHE_PREFIX_KEY tableName (buildKey schema r2)) ∧
    (∀ (tableName : String) (schema : KeySchema) (r1 r2 : Record),
        DashFreeKey (buildKey schema r1) → DashFreeKey (buildKey schema r2) →
        (∃ e ∈ schema, attrOf r1 e.AttributeName ≠ attrOf r2 e.AttributeName) →
        buildCacheKey CACHE_PREFIX_KEY tableName (buildKey schema r1) ≠
          buildCacheKey CACHE_PREFIX_KEY tableName (buildKey schema r2)) := by
  constructor
  · intro tn schema r1 r2 h
    unfold buildKey
    rw [List.map_congr_left (fun e he => by rw [h e he])]
  · intro tn schema r1 r2 h1 h2 hdiff heq
    obtain ⟨e, he, hne⟩ := hdiff
    have hk : buildKey schema r1 = buildKey schema r2 :=
      buildCacheKey_inj _ _ _ _ h1 h2 heq
    unfold buildKey at hk
    have := List.map_inj_left.mp hk e he
    exact hne (congrArg Prod.snd this)

/-- Claim C2, counterexample to the claim as stated: over the composite key
schema (p HASH, r RANGE), the records (p = x-r-y, r = z) and
(p = x, r = y-r-z) differ in both primary-key attributes yet derive the
byte-identical cache key sup:t:p-x-r-y-r-z, because attribute values
containing the "-" delimiter make the joined fragments ambiguous. -/
theorem claim_C2_counterexample :
    attrOf [("p", "x-r-y"), ("r", "z")] "p" ≠
        attrOf [("p", "x"), ("r", "y-r-z")] "p" ∧
      buildCacheKey CACHE_PREFIX_KEY "t"
          (buildKey [⟨"p", "HASH"⟩, ⟨"r", "RANGE"⟩] [("p", "x-r-y"), ("r", "z")]) =
        buildCacheKey CACHE_PREFIX_KEY "t"
          (buildKey [⟨"p", "HASH"⟩, ⟨"r", "RANGE"⟩] [("p", "x"), ("r", "y-r-z")]) := by
  decide

/-- Claim C2, witness: the amended theorem applied at concrete inputs, for
determinism on records agreeing on the key attribute and for injectivity on
two delimiter-free records differing in it. -/
theorem claim_C2_witness :
    buildCacheKey CACHE_PREFIX_KEY "t"
        (buildKey [⟨"id", "HASH"⟩] [("id", "a"), ("x", "1")]) =
      buildCacheKey CACHE_PREFIX_KEY "t"
        (buildKey [⟨"id", "HASH"⟩] [("id", "a"), ("x", "2")]) ∧
    buildCacheKey CACHE_PREFIX_KEY "t"
        (buildKey [⟨"id", "HASH"⟩] [("id", "a")]) ≠
      buildCacheKey CACHE_PREFIX_KEY "t"
        (buildKey [⟨"id", "HASH"⟩] [("id", "b")]) :=
  ⟨claim_C2_cache_key_determinism_and_injectivity.1 "t" [⟨"id", "HASH"⟩]
      [("id", "a"), ("x", "1")] [("id", "a"), ("x", "2")] (by decide),
   claim_C2_cache_key_determinism_and_injectivity.2 "t" [⟨"id", "HASH"⟩]
      [("id", "a")] [("id", "b")] (by decide) (by decide) (by decide)⟩

/-- Claim C6: every successful mutating operation returns exactly what the
backing store reports for that mutation: put returns the stored item, and
update/updateConditional return the store's reported post-update record;
none of these results is derived from the cache (the embedding gives the
mutating operations no access to cache contents at all). -/
theorem claim_C6_mutations_return_store_values (ds : DS) (item key : Record)
    (ue : String) (names vals : List (String × String)) (ttl : Option Nat)
    (cond : Option String) (attrs : Option Record) :
    (put ds item ttl cond CacheResp.ok).1 = Except.ok item ∧
    (update ds key ue names vals ttl cond attrs CacheResp.ok).1 =
      Except.ok attrs ∧
    (updateConditional ds key ue cond names vals ttl attrs CacheResp.ok).1 =
      Except.ok attrs := by
  refine ⟨?_, ?_, ?_⟩
  · unfold put
    split <;> rfl
  · cases attrs <;> cases httl : ttlTruthy ttl <;> simp [update, httl]
  · cases attrs <;> cases httl : ttlTruthy ttl <;> simp [updateConditional, httl]

/-- Claim C7: retrieveFromCache is a total function that returns the
deserialized record when the cache get yields a parseable value, and the
absent marker on every failure (missing key, deserialization error,
transport error); consequently a transport error during getItem behaves
exactly as a cache miss, forcing fallback to the backing store rather than
failing the get. -/
theorem claim_C7_retrieveFromCache_never_throws :
    (∀ (raw : String) (rec : Record), parseRecord raw = some rec →
        retrieveFromCache (CacheGetOutcome.value raw) = some rec) ∧
    (∀ raw : String, parseRecord raw = none →
        retrieveFromCache (CacheGetOutcome.value raw) = none) ∧
    retrieveFromCache CacheGetOutcome.missing = none ∧
    retrieveFromCache CacheGetOutcome.failed = none ∧
    (∀ (gin : GetIn) (storeItem : Option Record) (ttl : Option Nat),
        getItem gin CacheGetOutcome.failed storeItem ttl =
          getItem gin CacheGetOutcome.missing storeItem ttl) := by
  refine ⟨?_, ?_, rfl, rfl, ?_⟩
  · intro raw rec h
    simp [retrieveFromCache, h]
  · intro raw h
    simp [retrieveFromCache, h]
  · intro gin storeItem ttl
    rfl

/-- Claim C7, witness: the theorem applied at a raw value that parses and at
one that does not. -/
theorem claim_C7_witness :
    retrieveFromCache (CacheGetOutcome.value "a=b;") = some [("a", "b")] ∧
    retrieveFromCache (CacheGetOutcome.value "#") = none :=
  ⟨claim_C7_retrieveFromCache_never_throws.1 "a=b;" [("a", "b")] (by decide),
   claim_C7_retrieveFromCache_never_throws.2.1 "#" (by decide)⟩

/-- Claim C8: when the cache yields no record (miss, parse failure or
transport error) and the backing store has no matching record either,
getItem fails with the NotFound error — it does not resolve with an empty
or absent value — and no cache write is attempted. -/
theorem claim_C8_getItem_not_found (gin : GetIn) (outcome : CacheGetOutcome)
    (ttl : Option Nat) (h : retrieveFromCache outcome = none) :
    (getItem gin outcome none ttl).1 = Except.error DbErr.notFound ∧
    cacheWrites (getItem gin outcome none ttl).2 = [] := by
  unfold getItem cacheGetItem
  rw [h]
  exact ⟨rfl, rfl⟩

/-- Claim C8, witness: the theorem applied at a concrete lookup with a cache
miss and an absent store record. -/
theorem claim_C8_witness :
    (getItem ⟨"test_hash_only", [("id", "does_not_exist")], true⟩
        CacheGetOutcome.missing none (some 30)).1 =
      Except.error DbErr.notFound ∧
    cacheWrites (getItem ⟨"test_hash_only", [("id", "does_not_exist")], true⟩
        CacheGetOutcome.missing none (some 30)).2 = [] :=
  claim_C8_getItem_not_found ⟨"test_hash_only", [("id", "does_not_exist")], true⟩
    CacheGetOutcome.missing (some 30) rfl

/-- Claim C9: when the cache call of a facade operation fails (the
setInCache of put/update/updateConditional, the setItemsInCache of
query/scan, the removeItemFromCache of delete), the operation surfaces the
error to the caller, and at that point the backing-store call has already
been issued and completed and is the only store interaction of the
operation (nothing is rolled back). -/
theorem claim_C9_cache_failures_surface :
    (∀ (ds : DS) (item : Record) (ttl : Option Nat) (cond : Option String),
        ttlTruthy ttl = true →
        (put ds item ttl cond CacheResp.err).1 =
            Except.error DbErr.cacheWriteFailed ∧
          storeOps (put ds item ttl cond CacheResp.err).2 =
            [Evt.storePut ⟨ds.tableName, item, condField cond⟩]) ∧
    (∀ (ds : DS) (key : Record) (ue : String)
        (names vals : List (String × String)) (ttl : Option Nat)
        (cond : Option String) (u : Record),
        ttlTruthy ttl = true →
        (update ds key ue names vals ttl cond (some u) CacheResp.err).1 =
            Except.error DbErr.cacheWriteFailed ∧
          storeOps (update ds key ue names vals ttl cond (some u)
              CacheResp.err).2 =
            [Evt.storeUpdate
              ⟨ds.tableName, key, "ALL_NEW", ue, names, vals, condField cond⟩]) ∧
    (∀ (ds : DS) (key : Record) (ue : String)
        (names vals : List (String × String)) (ttl : Option Nat)
        (cond : Option String) (u : Record),
        ttlTruthy ttl = true →
        (updateConditional ds key ue cond names vals ttl (some u)
              CacheResp.err).1 =
            Except.error DbErr.cacheWriteFailed ∧
          storeOps (updateConditional ds key ue cond names vals ttl (some u)
              CacheResp.err).2 =
            [Evt.storeUpdate
              ⟨ds.tableName, key, "ALL_NEW", ue, names, vals, cond⟩]) ∧
    (∀ (ds : DS) (qin : QueryIn) (out : QueryOutput) (ttl : Option Nat),
        ttlTruthy ttl = true → out.Items ≠ [] →
        (query ds qin out ttl CacheResp.err).1 =
            Except.error DbErr.cacheWriteFailed ∧
          storeOps (query ds qin out ttl CacheResp.err).2 =
            [Evt.storeQuery qin]) ∧
    (∀ (ds : DS) (sin : ScanIn) (out : QueryOutput) (ttl : Option Nat),
        ttlTruthy ttl = true → out.Items ≠ [] →
        (scan ds sin out ttl CacheResp.err).1 =
            Except.error DbErr.cacheWriteFailed ∧
          storeOps (scan ds sin out ttl CacheResp.err).2 =
            [Evt.storeScan sin]) ∧
    (∀ (ds : DS) (key : Record),
        (delete ds key CacheResp.err).1 =
            Except.error DbErr.cacheRemoveFailed ∧
          storeOps (delete ds key CacheResp.err).2 =
            [Evt.storeDelete ⟨ds.tableName, key⟩]) := by
  refine ⟨?_, ?_, ?_, ?_, ?_, ?_⟩
  · intro ds item ttl cond h
    unfold put
    rw [h]
    exact ⟨rfl, rfl⟩
  · intro ds key ue names vals ttl cond u h
    simp [update, h, storeOps, List.filter, Evt.isStoreOp]
  · intro ds key ue names vals ttl cond u h
    simp [updateConditional, h, storeOps, List.filter, Evt.isStoreOp]
  · intro ds qin out ttl h hne
    have hlen : (out.Items.length != 0) = true := by
      simp only [bne_iff_ne, ne_eq, List.length_eq_zero]
      exact hne
    simp [query, cacheItems, h, hlen, storeOps, List.filter, Evt.isStoreOp,
      Except.map]
  · intro ds sin out ttl h hne
    have hlen : (out.Items.length != 0) = true := by
      simp only [bne_iff_ne, ne_eq, List.length_eq_zero]
      exact hne
    simp [scan, cacheItems, h, hlen, storeOps, List.filter, Evt.isStoreOp,
      Except.map]
  · intro ds key
    exact ⟨rfl, rfl⟩

/-- Claim C9, witness: the theorem applied to each of the six operations at
concrete inputs with ttl 30, a reported record, and a failing cache. -/
theorem claim_C9_witness :
    (put ⟨"t", [⟨"id", "HASH"⟩]⟩ [("id", "a")] (some 30) none
        CacheResp.err).1 = Except.error DbErr.cacheWriteFailed ∧
    (update ⟨"t", [⟨"id", "HASH"⟩]⟩ [("id", "a")] "SET #t = :t" [] []
        (some 30) none (some [("id", "a")]) CacheResp.err).1 =
      Except.error DbErr.cacheWriteFailed ∧
    (updateConditional ⟨"t", [⟨"id", "HASH"⟩]⟩ [("id", "a")] "SET #t = :t"
        (some "#t <> :t") [] [] (some 30) (some [("id", "a")])
        CacheResp.err).1 = Except.error DbErr.cacheWriteFailed ∧
    (query ⟨"t", [⟨"id", "HASH"⟩]⟩ ⟨"t", none⟩ ⟨[[("id", "a")]], none, none, none⟩
        (some 30) CacheResp.err).1 = Except.error DbErr.cacheWriteFailed ∧
    (scan ⟨"t", [⟨"id", "HASH"⟩]⟩ ⟨"t", none⟩ ⟨[[("id", "a")]], none, none, none⟩
        (some 30) CacheResp.err).1 = Except.error DbErr.cacheWriteFailed ∧
    (delete ⟨"t", [⟨"id", "HASH"⟩]⟩ [("id", "a")] CacheResp.err).1 =
      Except.error DbErr.cacheRemoveFailed :=
  ⟨(claim_C9_cache_failures_surface.1 ⟨"t", [⟨"id", "HASH"⟩]⟩ [("id", "a")]
      (some 30) none (by decide)).1,
   (claim_C9_cache_failures_surface.2.1 ⟨"t", [⟨"id", "HASH"⟩]⟩ [("id", "a")]
      "SET #t = :t" [] [] (some 30) none [("id", "a")] (by decide)).1,
   (claim_C9_cache_failures_surface.2.2.1 ⟨"t", [⟨"id", "HASH"⟩]⟩ [("id", "a")]
      "SET #t = :t" [] [] (some 30) (some "#t <> :t") [("id", "a")]
      (by decide)).1,
   (claim_C9_cache_failures_surface.2.2.2.1 ⟨"t", [⟨"id", "HASH"⟩]⟩ ⟨"t", none⟩
      ⟨[[("id", "a")]], none, none, none⟩ (some 30) (by decide) (by decide)).1,
   (claim_C9_cache_failures_surface.2.2.2.2.1 ⟨"t", [⟨"id", "HASH"⟩]⟩ ⟨"t", none⟩
      ⟨[[("id", "a")]], none, none, none⟩ (some 30) (by decide) (by decide)).1,
   (claim_C9_cache_failures_surface.2.2.2.2.2 ⟨"t", [⟨"id", "HASH"⟩]⟩
      [("id", "a")]).1⟩

/-- Claim C10: when the backing store's update response carries no
post-update record, update and updateConditional resolve successfully with
the absent value — they raise no error — and perform no cache write,
whatever the ttl and the cache collaborator's behavior. -/
theorem claim_C10_update_without_attributes (ds : DS) (key : Record)
    (ue : String) (names vals : List (String × String)) (ttl : Option Nat)
    (cond : Option String) (cr : CacheResp) :
    (update ds key ue names vals ttl cond none cr).1 = Except.ok none ∧
    cacheWrites (update ds key ue names vals ttl cond none cr).2 = [] ∧
    (updateConditional ds key ue cond names vals ttl none cr).1 =
      Except.ok none ∧
    cacheWrites (updateConditional ds key ue cond names vals ttl none cr).2 =
      [] := by
  cases httl : ttlTruthy ttl <;>
    simp [update, updateConditional, httl, cacheWrites, List.filter,
      Evt.isCacheWrite]

end DynamoDS
